import Mathlib

/-!
# kpmenu client/server handoff (`kpmenulib/clientserver.go`)

A shallow embedding of `StartServer`, `setupListener`, `makeCacheFolder`,
`savePort` and `getPort`.

* The menu is passed explicitly (the Go code works on `*Menu`).
* The operating system is an explicit input: the file system is a finite map
  from paths to nodes, `net.Listen` and the successive results of
  `listener.Accept()` are given as a script, and every accepted connection says
  what `gob` decoding returns on it and after how long.
* Observable calls (`Execute`, `Show`, `log`, `os.Exit`, the deferred `Close`s)
  are appended to a trace, so that "called exactly once" and "never called"
  are statements about the trace.
-/

namespace Kpmenu

/-! ## Go errors -/

/-- A Go `error` value, by dynamic type. -/
inductive GoError where
  /-- A `*net.OpError`; `timeout` is what its `Timeout()` method reports. -/
  | opError (timeout : Bool) (msg : String)
  /-- The sentinel `io.EOF`. -/
  | eof
  /-- A `*fs.PathError` of the `os` package. -/
  | pathError (op : String) (path : List String) (msg : String)
  /-- An `*errors.errorString`, as built by `errors.New` and `fmt.Errorf`. -/
  | errorString (msg : String)
  deriving DecidableEq, Repr

/-- The `Error()` method. -/
def GoError.Error : GoError → String
  | .opError _ msg => msg
  | .eof => "EOF"
  | .pathError op path msg => op ++ " " ++ "/".intercalate path ++ ": " ++ msg
  | .errorString msg => msg

/-! ## Data model -/

/-- Packet is the data sent by the client to the server listener. -/
structure Packet where
  CliArguments : List String
  deriving DecidableEq, Repr

/-- The fields of `Configuration.Flags` that the file reads or writes. -/
structure Flags where
  Daemon : Bool
  Autotype : Bool
  deriving DecidableEq, Repr

/-- The fields of `Configuration.General` that the file reads. Durations are nanoseconds. -/
structure General where
  NoCache : Bool
  CacheTimeout : Int
  deriving DecidableEq, Repr

/-- The configuration of a menu. -/
structure Configuration where
  General : General
  Flags : Flags
  deriving DecidableEq, Repr

/-- Modelled from the spec: the `Menu` type is declared outside `clientserver.go`.
It carries the fields this file touches (`Configuration`, `CliArguments`,
`CacheStart`); `Rest` stands for every other field, owned by the collaborators. -/
structure Menu where
  Configuration : Configuration
  CliArguments : List String
  CacheStart : Int
  Rest : Nat
  deriving DecidableEq, Repr

/-- The methods `(*Menu).Execute` and `(*Menu).Show`, declared outside
`clientserver.go`: each may change the menu and returns a boolean. -/
structure Collab where
  Execute : Menu → Menu × Bool
  Show : Menu → Menu × Bool

/-! ## File system -/

/-- A file-system node: a regular file with its bytes, or a directory.
Go's `[]byte(s)` and `string(b)` keep the byte sequence, so both sides are one type. -/
inductive Node where
  | file (data : String)
  | dir
  deriving DecidableEq, Repr

/-- A cleaned path, as its components. -/
abbrev Path := List String

/-- The file system: the most recent binding of a path wins. -/
abbrev FS := List (Path × Node)

/-- The node at a path; the root always is a directory. -/
def FS.lookup (fs : FS) (p : Path) : Option Node :=
  if p = [] then some .dir else
  match fs.find? (fun e => decide (e.1 = p)) with
  | some e => some e.2
  | none => none

/-- Bind a path to a node. -/
def FS.set (fs : FS) (p : Path) (n : Node) : FS := (p, n) :: fs

/-- Walks `rest` below the existing prefix `pre`, creating missing directories. -/
def FS.mkdirFrom (fs : FS) (pre : Path) : List String → Except GoError FS
  | [] => .ok fs
  | c :: cs =>
    match fs.lookup (pre ++ [c]) with
    | some .dir => FS.mkdirFrom fs (pre ++ [c]) cs
    | some (.file _) => .error (.pathError "mkdir" (pre ++ [c]) "not a directory")
    | none => FS.mkdirFrom (fs.set (pre ++ [c]) .dir) (pre ++ [c]) cs

/-- The call `os.MkdirAll(path, 0755)`: fails when a component is a regular file. In a
file system where every bound path lies in a directory, all components above such a file
exist already, so a failing call has created nothing. -/
def FS.MkdirAll (fs : FS) (path : Path) : Except GoError FS :=
  FS.mkdirFrom fs [] path

/-- The call `ioutil.WriteFile(path, data, 0644)`: creates or truncates the file;
fails when the path is a directory or its parent is not one. -/
def FS.WriteFile (fs : FS) (path : Path) (data : String) : Except GoError FS :=
  match fs.lookup path with
  | some .dir => .error (.pathError "open" path "is a directory")
  | _ =>
    match fs.lookup path.dropLast with
    | some .dir => .ok (fs.set path (.file data))
    | some (.file _) => .error (.pathError "open" path "not a directory")
    | none => .error (.pathError "open" path "no such file or directory")

/-- The call `ioutil.ReadFile(path)`: the data (empty on failure) and the error. -/
def FS.ReadFile (fs : FS) (path : Path) : String × Option GoError :=
  match fs.lookup path with
  | some (.file data) => (data, none)
  | some .dir => ("", some (.pathError "read" path "is a directory"))
  | none => ("", some (.pathError "open" path "no such file or directory"))

/-- The path `filepath.Join(os.Getenv("HOME"), ".cache/kpmenu/")`. -/
def cacheFolder (home : Path) : Path := home ++ [".cache", "kpmenu"]

/-- The path `filepath.Join(os.Getenv("HOME"), ".cache/kpmenu/server.port")`. -/
def portFile (home : Path) : Path := home ++ [".cache", "kpmenu", "server.port"]

/-- The function `makeCacheFolder`. -/
def makeCacheFolder (home : Path) (fs : FS) : FS × Option GoError :=
  match fs.MkdirAll (cacheFolder home) with
  | .error err => (fs, some (.errorString ("failed to make cache folder: " ++ err.Error)))
  | .ok fs1 => (fs1, none)

/-- The function `savePort`. -/
def savePort (home : Path) (fs : FS) (port : String) : FS × Option GoError :=
  match makeCacheFolder home fs with
  | (fs1, none) =>
    match fs1.WriteFile (portFile home) port with
    | .error err =>
      (fs1, some (.errorString ("failed to make server port cache file: " ++ err.Error)))
    | .ok fs2 => (fs2, none)
  | (fs1, some err) => (fs1, some err)

/-- The function `getPort`. -/
def getPort (home : Path) (fs : FS) : String × Option GoError :=
  fs.ReadFile (portFile home)

/-! ## Server state, environment and outcomes -/

/-- An observable action of the server. -/
inductive Event where
  /-- A `log.Print`/`log.Printf` line. -/
  | log (msg : String)
  /-- A call of `m.Execute()`. -/
  | execute
  /-- A call of `m.Show()`, with the `CliArguments` and `Autotype` the menu holds then. -/
  | showMenu (args : List String) (autotype : Bool)
  /-- A successful `net.Listen("tcp", ":0")`, with the port it bound. -/
  | listen (port : String)
  /-- A call of `tcpListener.SetDeadline` (the cache deadline is armed). -/
  | setDeadline
  /-- A deferred `conn.Close()` running. -/
  | closeConn
  /-- The deferred `tcpListener.Close()` running. -/
  | closeListener
  /-- A call of `os.Exit`. -/
  | exit (code : Nat)
  deriving DecidableEq, Repr

/-- What the server works on: the menu, the file system, the trace of actions so far,
and the number of accepted connections whose `Close` is deferred. -/
structure State where
  m : Menu
  fs : FS
  trace : List Event
  deferred : Nat
  deriving DecidableEq, Repr

/-- Append an action to the trace. -/
def State.emit (s : State) (e : Event) : State := { s with trace := s.trace ++ [e] }

/-- How a call ends. -/
inductive Outcome where
  /-- The function returned this `error` (`none` is `nil`). -/
  | returned (err : Option GoError)
  /-- The process ended in `os.Exit`. -/
  | exited (code : Nat)
  /-- The script of accept results is used up: the server waits in `Accept`. -/
  | blocked
  deriving DecidableEq, Repr

/-- What `dec.Decode(&packet)` leaves behind: the packet variable and the error. -/
structure DecodeResult where
  packet : Packet
  err : Option GoError
  deriving DecidableEq, Repr

/-- An accepted connection: the result of decoding it and the time (in nanoseconds
after the accept) at which the decode call returns. -/
structure Conn where
  decode : DecodeResult
  delay : Nat
  deriving DecidableEq, Repr

/-- The error of a failed `Accept`. The listener is the `*net.TCPListener` that the
successful `net.Listen("tcp", ":0")` returned, and its `Accept` hands out every failure
wrapped in a `*net.OpError`; `timeout` is what `Timeout()` reports, `msg` the text. -/
inductive OpError where
  | opError (timeout : Bool) (msg : String)
  deriving DecidableEq, Repr

/-- The result of one `listener.Accept()`. -/
inductive AcceptResult where
  | conn (c : Conn)
  | error (err : OpError)
  deriving DecidableEq, Repr

/-- The environment of one server run. -/
structure Env where
  /-- The components of `os.Getenv("HOME")`. -/
  home : Path
  /-- The result of `net.Listen("tcp", ":0")`: the bound port, or the error. -/
  listen : Except GoError String
  /-- The results of the successive `listener.Accept()` calls. -/
  accepts : List AcceptResult

/-- Go's `time.Second`, in nanoseconds. -/
def Second : Nat := 1000000000

/-- A channel send the decode goroutine attempts. -/
inductive Send where
  | ch (packet : Packet)
  | errCh (err : GoError)
  deriving DecidableEq, Repr

/-- The goroutine of `setupListener`: the sends it attempts, in order. Both channels
are unbuffered, so a send only completes when the listener receives it. -/
def decodeTask (d : DecodeResult) : List Send :=
  match d.err with
  | some err => if err ≠ .eof then [.errCh err, .ch d.packet] else []
  | none => [.ch d.packet]

/-- The case the `select` takes. -/
inductive Selected where
  | packet (p : Packet)
  | error (err : GoError)
  | timeout
  deriving DecidableEq, Repr

/-- The `select` of `setupListener`: the first send of the goroutine is received when it
is offered before the tick of `time.Tick(3 * time.Second)`, else the tick is. The select
runs once per connection, so later sends of the goroutine are never received. -/
def selectCase (sends : List Send) (delay : Nat) : Selected :=
  match sends with
  | [] => .timeout
  | .ch p :: _ => if delay < 3 * Second then .packet p else .timeout
  | .errCh err :: _ => if delay < 3 * Second then .error err else .timeout

/-- Go's `%v` of a `[]string`. -/
def fmtArgs (args : List String) : String := "[" ++ " ".intercalate args ++ "]"

/-- The call `m.Execute()`. -/
def callExecute (c : Collab) (s : State) : State × Bool :=
  let r := c.Execute s.m
  ({ (s.emit .execute) with m := r.1 }, r.2)

/-- The closure `handlePacket` of `StartServer`. -/
def handlePacket (c : Collab) (s : State) (packet : Packet) : State × Bool :=
  let s1 := s.emit (.log ("received a client call with args \"" ++ fmtArgs packet.CliArguments ++ "\""))
  let m1 : Menu :=
    { s1.m with
      Configuration := { s1.m.Configuration with
        Flags := { s1.m.Configuration.Flags with Autotype := false } } }
  let m2 : Menu := { m1 with CliArguments := packet.CliArguments }
  let r := c.Show m2
  ({ (s1.emit (.showMenu m2.CliArguments m2.Configuration.Flags.Autotype)) with m := r.1 }, r.2)

/-- The result of one pass through the body of the `for` loop. -/
inductive Step where
  /-- The body ran to its end, leaving the loop variable `exit`. -/
  | next (s : State) (exit : Bool)
  /-- The body left the function. -/
  | stop (s : State) (o : Outcome)
  deriving DecidableEq, Repr

/-- The state a loop body leaves behind. -/
def Step.state : Step → State
  | .next s _ => s
  | .stop s _ => s

/-- The head of the loop body: a server that is not a daemon arms the accept call with
the remaining cache time. The expiry itself is an accept result of the script. -/
def armDeadline (s : State) : State :=
  if !s.m.Configuration.Flags.Daemon then s.emit .setDeadline else s

/-- The state once an accepted connection has its `Close` deferred. -/
def deferClose (s : State) : State := { s with deferred := s.deferred + 1 }

/-- The body of the `for !exit` loop of `setupListener`, on one accept result. An accept
error is a `*net.OpError`, so `netErr := err.(*net.OpError)` yields it and `Timeout()`
decides between the clean end and returning `err`. -/
def listenerIteration (handlePacket : State → Packet → State × Bool)
    (a : AcceptResult) (s : State) : Step :=
  let s := armDeadline s
  match a with
  | .error (.opError timeout msg) =>
    if timeout then .stop (s.emit (.log "cache timed out")) (.returned none)
    else .stop s (.returned (some (.opError timeout msg)))
  | .conn c =>
    let s := deferClose s
    match selectCase (decodeTask c.decode) c.delay with
    | .packet packet =>
      let r := handlePacket s packet
      .next r.1 (r.2 && !r.1.m.Configuration.Flags.Daemon)
    | .error err => .stop s (.returned (some err))
    | .timeout => .next (s.emit (.log "received request is timed out")) false

/-- The loop `for !exit { ... }; return nil` of `setupListener`. -/
def listenerLoop (handlePacket : State → Packet → State × Bool) :
    List AcceptResult → Bool → State → State × Outcome
  | _, true, s => (s, .returned none)
  | [], false, s => (s, .blocked)
  | a :: rest, false, s =>
    match listenerIteration handlePacket a s with
    | .stop s1 o => (s1, o)
    | .next s1 exit => listenerLoop handlePacket rest exit s1

/-- The deferred calls of `setupListener`, run when it returns: the
connections are closed, then the listener. -/
def runDeferred (r : State × Outcome) : State × Outcome :=
  match r.2 with
  | .blocked => r
  | _ =>
    ({ r.1 with
        trace := r.1.trace ++ List.replicate r.1.deferred .closeConn ++ [.closeListener],
        deferred := 0 }, r.2)

/-- The state once `net.Listen` has bound `port`: from here on the `Close` of the
listener is deferred, and no connection has been accepted by this call yet. -/
def bound (s : State) (port : String) : State :=
  { s.emit (.listen port) with deferred := 0 }

/-- The function `setupListener`. -/
def setupListener (env : Env) (handlePacket : State → Packet → State × Bool)
    (s : State) : State × Outcome :=
  match env.listen with
  | .error err => (s, .returned (some err))
  | .ok port =>
    let s := bound s port
    match savePort env.home s.fs port with
    | (fs1, some err) => runDeferred ({ s with fs := fs1 }, .returned (some err))
    | (fs1, none) => runDeferred (listenerLoop handlePacket env.accepts false { s with fs := fs1 })

/-- The function `StartServer`. -/
def StartServer (c : Collab) (env : Env) (s : State) : State × Outcome :=
  let s := if s.m.Configuration.Flags.Daemon then s.emit (.log "Executing as daemon") else s
  if s.m.Configuration.General.NoCache && !s.m.Configuration.Flags.Daemon then
    let r := callExecute c s
    if r.2 = true then (r.1.emit (.exit 1), .exited 1) else (r.1, .returned none)
  else
    let r := if !s.m.Configuration.Flags.Daemon then callExecute c s else (s, false)
    if !r.2 then setupListener env (handlePacket c) r.1 else (r.1, .returned none)

/-- The number of `Execute` calls in a trace. -/
def executeCalls (t : List Event) : Nat := t.count .execute

/-- The `Show` calls in a trace, with the arguments and autotype flag each one saw. -/
def showCalls (t : List Event) : List (List String × Bool) :=
  t.filterMap fun e => match e with
    | .showMenu args autotype => some (args, autotype)
    | _ => none

/-- The ports bound by `net.Listen` in a trace. -/
def listenCalls (t : List Event) : List String :=
  t.filterMap fun e => match e with
    | .listen port => some port
    | _ => none

/-! ## Sample inputs -/

/-- Collaborators that leave the menu alone and report the given booleans. -/
def demoCollab (execute showResult : Bool) : Collab :=
  ⟨fun m => (m, execute), fun m => (m, showResult)⟩

/-- A file system with the home directory and an older port file in the cache folder. -/
def demoFS : FS :=
  [(["home", "user", ".cache", "kpmenu", "server.port"], .file "9"),
   (["home", "user", ".cache", "kpmenu"], .dir),
   (["home", "user", ".cache"], .dir),
   (["home", "user"], .dir),
   (["home"], .dir)]

/-- A menu with the given `NoCache` and `Daemon` flags, autotype on, a 60 s cache timeout. -/
def demoMenu (noCache daemon : Bool) : Menu :=
  ⟨⟨⟨noCache, 60 * Second⟩, ⟨daemon, true⟩⟩, [], 0, 0⟩

/-- A fresh server state over an empty file system. -/
def demoState (noCache daemon : Bool) : State := ⟨demoMenu noCache daemon, [], [], 0⟩

/-- A packet with two arguments. -/
def demoPacket : Packet := ⟨["--select", "entry1"]⟩

/-- An environment: port 4000 is bound, and `Accept` yields the given results. -/
def demoEnv (accepts : List AcceptResult) : Env := ⟨["home", "user"], .ok "4000", accepts⟩

/-- The file system once port 4000 is saved below `/home/user` on an empty disk. -/
def demoSaved : FS := (savePort ["home", "user"] [] "4000").1

/-- The sample state once the listener has bound port 4000 and saved it. -/
def demoListening (noCache daemon : Bool) : State :=
  { bound (demoState noCache daemon) "4000" with fs := demoSaved }

/-- A connection on which the sample packet is decoded after 5 ns. -/
def demoConn : AcceptResult := .conn ⟨⟨demoPacket, none⟩, 5⟩

/-- The sample state after the listener has served one sample request that did not ask
to exit, and waits in `Accept` again. -/
def demoServed : State :=
  (listenerLoop (handlePacket (demoCollab false false)) [demoConn] false
    (demoListening false false)).1

/-! ## Lemmas on the file system -/

theorem portFile_ne_nil (home : Path) : portFile home ≠ [] := by
  simp [portFile]

theorem lookup_set_self (fs : FS) (p : Path) (n : Node) (hp : p ≠ []) :
    FS.lookup (fs.set p n) p = some n := by
  simp [FS.lookup, FS.set, hp]

theorem WriteFile_lookup (fs fs2 : FS) (p : Path) (data : String) (hp : p ≠ [])
    (h : fs.WriteFile p data = .ok fs2) : fs2.lookup p = some (.file data) := by
  unfold FS.WriteFile at h
  split at h
  · cases h
  · split at h
    · cases h
      exact lookup_set_self fs p (.file data) hp
    · cases h
    · cases h

/-! ## Lemmas on the trace -/

theorem executeCalls_emit (s : State) (e : Event) (he : e ≠ .execute) :
    executeCalls (s.emit e).trace = executeCalls s.trace := by
  simp [executeCalls, State.emit, List.count_append, List.count_cons, he]

theorem executeCalls_armDeadline (s : State) :
    executeCalls (armDeadline s).trace = executeCalls s.trace := by
  unfold armDeadline
  split
  · exact executeCalls_emit s _ (by simp)
  · rfl

theorem executeCalls_handlePacket (c : Collab) (s : State) (p : Packet) :
    executeCalls (handlePacket c s p).1.trace = executeCalls s.trace := by
  simp [handlePacket, executeCalls, State.emit, List.count_append, List.count_cons]

theorem executeCalls_callExecute (c : Collab) (s : State) :
    executeCalls (callExecute c s).1.trace = executeCalls s.trace + 1 := by
  simp [callExecute, executeCalls, State.emit, List.count_append]

/-- One loop body keeps the number of `Execute` calls, whenever the handler does. -/
theorem executeCalls_listenerIteration (h : State → Packet → State × Bool)
    (hh : ∀ s p, executeCalls (h s p).1.trace = executeCalls s.trace)
    (a : AcceptResult) (s : State) :
    executeCalls (listenerIteration h a s).state.trace = executeCalls s.trace := by
  have hd : executeCalls (deferClose (armDeadline s)).trace = executeCalls s.trace :=
    executeCalls_armDeadline s
  cases a with
  | error err =>
    cases err with
    | opError timeout msg =>
      cases timeout
      · simp [listenerIteration, Step.state, executeCalls_armDeadline]
      · simp [listenerIteration, Step.state, executeCalls_emit, executeCalls_armDeadline]
  | conn c =>
    cases hsel : selectCase (decodeTask c.decode) c.delay with
    | packet p => simp [listenerIteration, hsel, Step.state, hh, hd]
    | error err => simp [listenerIteration, hsel, Step.state, hd]
    | timeout => simp [listenerIteration, hsel, Step.state, executeCalls_emit, hd]

/-- The loop keeps the number of `Execute` calls, whenever the handler does. -/
theorem executeCalls_listenerLoop (h : State → Packet → State × Bool)
    (hh : ∀ s p, executeCalls (h s p).1.trace = executeCalls s.trace)
    (as : List AcceptResult) :
    ∀ (b : Bool) (s : State),
      executeCalls (listenerLoop h as b s).1.trace = executeCalls s.trace := by
  induction as with
  | nil =>
    intro b s
    cases b <;> simp [listenerLoop]
  | cons a rest ih =>
    intro b s
    cases b
    · have hi := executeCalls_listenerIteration h hh a s
      cases hstep : listenerIteration h a s with
      | next s1 e =>
        rw [hstep] at hi
        simp only [listenerLoop, hstep]
        rw [ih]
        exact hi
      | stop s1 o =>
        rw [hstep] at hi
        simp only [listenerLoop, hstep]
        exact hi
    · simp [listenerLoop]

theorem executeCalls_runDeferred (r : State × Outcome) :
    executeCalls (runDeferred r).1.trace = executeCalls r.1.trace := by
  unfold runDeferred
  split
  · rfl
  · simp [executeCalls, List.count_append, List.count_replicate, List.count_cons]

theorem executeCalls_setupListener (env : Env) (h : State → Packet → State × Bool)
    (hh : ∀ s p, executeCalls (h s p).1.trace = executeCalls s.trace) (s : State) :
    executeCalls (setupListener env h s).1.trace = executeCalls s.trace := by
  unfold setupListener
  cases env.listen with
  | error err => rfl
  | ok port =>
    simp only []
    rcases hsp : savePort env.home (bound s port).fs port with ⟨fs1, _ | err⟩
    · simp only []
      rw [executeCalls_runDeferred, executeCalls_listenerLoop h hh]
      exact executeCalls_emit s _ (by simp)
    · simp only []
      rw [executeCalls_runDeferred]
      exact executeCalls_emit s _ (by simp)

/-! ## Lemmas on the loop -/

theorem listenerLoop_cons (h : State → Packet → State × Bool) (a : AcceptResult)
    (rest : List AcceptResult) (s : State) :
    listenerLoop h (a :: rest) false s =
      match listenerIteration h a s with
      | .stop s1 o => (s1, o)
      | .next s1 e => listenerLoop h rest e s1 := by
  simp only [listenerLoop]

/-- A loop body never ends in `blocked`. -/
theorem listenerIteration_ne_blocked (h : State → Packet → State × Bool)
    (a : AcceptResult) (s s1 : State) : listenerIteration h a s ≠ .stop s1 .blocked := by
  cases a with
  | error err =>
    cases err with
    | opError timeout msg => cases timeout <;> simp [listenerIteration]
  | conn c =>
    cases hsel : selectCase (decodeTask c.decode) c.delay <;> simp [listenerIteration, hsel]

/-- When the loop has used up the accept results `pre` and waits in `Accept` in state
`s1`, then on a longer script it goes on from `s1` with what follows `pre`. -/
theorem listenerLoop_append (h : State → Packet → State × Bool)
    (pre more : List AcceptResult) :
    ∀ (s s1 : State), listenerLoop h pre false s = (s1, .blocked) →
      listenerLoop h (pre ++ more) false s = listenerLoop h more false s1 := by
  induction pre with
  | nil =>
    intro s s1 hp
    simp only [listenerLoop, Prod.mk.injEq, and_true] at hp
    subst hp
    rfl
  | cons a rest ih =>
    intro s s1 hp
    rw [listenerLoop_cons] at hp
    rw [List.cons_append, listenerLoop_cons]
    cases hstep : listenerIteration h a s with
    | stop s2 o =>
      rw [hstep] at hp
      simp only [Prod.mk.injEq] at hp
      rcases hp with ⟨rfl, rfl⟩
      exact absurd hstep (listenerIteration_ne_blocked h a s s2)
    | next s2 e =>
      rw [hstep] at hp
      simp only [] at hp ⊢
      cases e
      · exact ih s2 s1 hp
      · simp [listenerLoop] at hp

/-- The run of `setupListener` once the port is bound and saved and the loop has got
through the accept results `pre`: it is the loop on the remaining results, followed by
the deferred calls. -/
theorem setupListener_from (env : Env) (h : State → Packet → State × Bool) (s s1 : State)
    (port : String) (fs1 : FS) (pre more : List AcceptResult)
    (hl : env.listen = .ok port)
    (hs : savePort env.home s.fs port = (fs1, none))
    (ha : env.accepts = pre ++ more)
    (hp : listenerLoop h pre false { bound s port with fs := fs1 } = (s1, .blocked)) :
    setupListener env h s = runDeferred (listenerLoop h more false s1) := by
  have hs2 : savePort env.home (bound s port).fs port = (fs1, none) := hs
  unfold setupListener
  simp only [hl, hs2, ha]
  rw [listenerLoop_append h pre more _ s1 hp]

theorem runDeferred_returned (s : State) (err : Option GoError) :
    (runDeferred (s, .returned err)).2 = .returned err := rfl

/-! ## The bootstrap `StartServer` -/

/-- C1 as stated fails: with `NoCache = true` and `Daemon = true`, the server does not
call `Execute` at all, binds port 4000, saves it, and dispatches the request it receives. -/
theorem noCache_daemon_listens :
    (demoState true true).m.Configuration.General.NoCache = true ∧
    (demoState true true).m.Configuration.Flags.Daemon = true ∧
    ¬ (executeCalls (StartServer (demoCollab false true) (demoEnv [.conn ⟨⟨demoPacket, none⟩, 5⟩])
          (demoState true true)).1.trace = 1 ∧
       listenCalls (StartServer (demoCollab false true) (demoEnv [.conn ⟨⟨demoPacket, none⟩, 5⟩])
          (demoState true true)).1.trace = []) ∧
    executeCalls (StartServer (demoCollab false true) (demoEnv [.conn ⟨⟨demoPacket, none⟩, 5⟩])
        (demoState true true)).1.trace = 0 ∧
    listenCalls (StartServer (demoCollab false true) (demoEnv [.conn ⟨⟨demoPacket, none⟩, 5⟩])
        (demoState true true)).1.trace = ["4000"] ∧
    getPort ["home", "user"] (StartServer (demoCollab false true) (demoEnv [.conn ⟨⟨demoPacket, none⟩, 5⟩])
        (demoState true true)).1.fs = ("4000", none) ∧
    showCalls (StartServer (demoCollab false true) (demoEnv [.conn ⟨⟨demoPacket, none⟩, 5⟩])
        (demoState true true)).1.trace = [(["--select", "entry1"], false)] := by
  decide

/-- C1, amended: with `NoCache = true` and `Daemon = true` the daemon flag wins.
`StartServer` logs, makes no `Execute` call, and runs `setupListener` with its packet
handler; its result is the result of the listener. -/
theorem StartServer_noCache_daemon (c : Collab) (env : Env) (s : State)
    (hn : s.m.Configuration.General.NoCache = true)
    (hd : s.m.Configuration.Flags.Daemon = true) :
    StartServer c env s =
      setupListener env (handlePacket c) (s.emit (.log "Executing as daemon")) ∧
    executeCalls (StartServer c env s).1.trace = executeCalls s.trace := by
  have heq : StartServer c env s =
      setupListener env (handlePacket c) (s.emit (.log "Executing as daemon")) := by
    simp [StartServer, hn, hd, State.emit]
  refine ⟨heq, ?_⟩
  rw [heq, executeCalls_setupListener env _ (executeCalls_handlePacket c)]
  exact executeCalls_emit s _ (by simp)

theorem StartServer_noCache_daemon_witness :
    (demoState true true).m.Configuration.General.NoCache = true ∧
    (demoState true true).m.Configuration.Flags.Daemon = true ∧
    StartServer (demoCollab false true) (demoEnv []) (demoState true true) =
      setupListener (demoEnv []) (handlePacket (demoCollab false true))
        ((demoState true true).emit (.log "Executing as daemon")) ∧
    executeCalls (StartServer (demoCollab false true) (demoEnv []) (demoState true true)).1.trace =
      executeCalls (demoState true true).trace :=
  ⟨rfl, rfl, StartServer_noCache_daemon (demoCollab false true) (demoEnv []) (demoState true true) rfl rfl⟩

/-- C3: with `NoCache = false`, a daemon makes no `Execute` call and runs the listener;
a server that is not a daemon calls `Execute` exactly once, returns `nil` without
listening when that call reports `true`, and runs the listener when it reports `false`.
Whenever the listener runs, its result is the result of `StartServer`. -/
theorem StartServer_cache (c : Collab) (env : Env) (s : State)
    (hn : s.m.Configuration.General.NoCache = false) :
    (s.m.Configuration.Flags.Daemon = true →
      StartServer c env s =
        setupListener env (handlePacket c) (s.emit (.log "Executing as daemon")) ∧
      executeCalls (StartServer c env s).1.trace = executeCalls s.trace) ∧
    (s.m.Configuration.Flags.Daemon = false →
      executeCalls (StartServer c env s).1.trace = executeCalls s.trace + 1 ∧
      ((c.Execute s.m).2 = true →
        StartServer c env s = ((callExecute c s).1, .returned none) ∧
        (StartServer c env s).1.trace = s.trace ++ [.execute] ∧
        (StartServer c env s).1.fs = s.fs) ∧
      ((c.Execute s.m).2 = false →
        StartServer c env s = setupListener env (handlePacket c) (callExecute c s).1)) := by
  constructor
  · intro hd
    have heq : StartServer c env s =
        setupListener env (handlePacket c) (s.emit (.log "Executing as daemon")) := by
      simp [StartServer, hn, hd, State.emit]
    refine ⟨heq, ?_⟩
    rw [heq, executeCalls_setupListener env _ (executeCalls_handlePacket c)]
    exact executeCalls_emit s _ (by simp)
  · intro hd
    have htrue : (c.Execute s.m).2 = true →
        StartServer c env s = ((callExecute c s).1, .returned none) := by
      intro he
      simp [StartServer, hn, hd, callExecute, he]
    have hfalse : (c.Execute s.m).2 = false →
        StartServer c env s = setupListener env (handlePacket c) (callExecute c s).1 := by
      intro he
      simp [StartServer, hn, hd, callExecute, he]
    refine ⟨?_, ?_, hfalse⟩
    · cases he : (c.Execute s.m).2
      · rw [hfalse he, executeCalls_setupListener env _ (executeCalls_handlePacket c)]
        exact executeCalls_callExecute c s
      · rw [htrue he]
        exact executeCalls_callExecute c s
    · intro he
      refine ⟨htrue he, ?_, ?_⟩
      · rw [htrue he]
        rfl
      · rw [htrue he]
        rfl

theorem StartServer_cache_witness :
    (demoState false false).m.Configuration.General.NoCache = false ∧
    (demoState false false).m.Configuration.Flags.Daemon = false ∧
    ((demoCollab false true).Execute (demoState false false).m).2 = false ∧
    executeCalls (StartServer (demoCollab false true) (demoEnv []) (demoState false false)).1.trace =
      executeCalls (demoState false false).trace + 1 ∧
    StartServer (demoCollab false true) (demoEnv []) (demoState false false) =
      setupListener (demoEnv []) (handlePacket (demoCollab false true))
        (callExecute (demoCollab false true) (demoState false false)).1 :=
  ⟨rfl, rfl, rfl,
    ((StartServer_cache (demoCollab false true) (demoEnv []) (demoState false false) rfl).2 rfl).1,
    ((StartServer_cache (demoCollab false true) (demoEnv []) (demoState false false) rfl).2 rfl).2.2 rfl⟩

/-- C4: with `NoCache = true` and `Daemon = false`, `StartServer` calls `Execute` once and
does nothing else but `os.Exit(1)` when that call reports `true`: the process exits with
code 1 exactly then, and otherwise `StartServer` returns `nil`. Nothing is bound, saved
or dispatched. -/
theorem StartServer_noCache (c : Collab) (env : Env) (s : State)
    (hn : s.m.Configuration.General.NoCache = true)
    (hd : s.m.Configuration.Flags.Daemon = false) :
    ((StartServer c env s).2 = .exited 1 ↔ (c.Execute s.m).2 = true) ∧
    ((c.Execute s.m).2 = false → (StartServer c env s).2 = .returned none) ∧
    (StartServer c env s).1.trace =
      s.trace ++ .execute :: (if (c.Execute s.m).2 = true then [.exit 1] else []) ∧
    executeCalls (StartServer c env s).1.trace = executeCalls s.trace + 1 ∧
    (StartServer c env s).1.fs = s.fs ∧
    (StartServer c env s).1.m = (c.Execute s.m).1 := by
  cases he : (c.Execute s.m).2 <;>
    simp [StartServer, hn, hd, callExecute, he, State.emit, executeCalls, List.count_append]

theorem StartServer_noCache_witness :
    (demoState true false).m.Configuration.General.NoCache = true ∧
    (demoState true false).m.Configuration.Flags.Daemon = false ∧
    (StartServer (demoCollab false true) (demoEnv []) (demoState true false)).2 = .returned none ∧
    (StartServer (demoCollab false true) (demoEnv []) (demoState true false)).1.trace = [.execute] :=
  ⟨rfl, rfl,
    (StartServer_noCache (demoCollab false true) (demoEnv []) (demoState true false) rfl rfl).2.1 rfl,
    (StartServer_noCache (demoCollab false true) (demoEnv []) (demoState true false) rfl rfl).2.2.1⟩

/-- C9: the handler of `StartServer` calls `Show` on the menu with `Autotype` set to
`false` and `CliArguments` set to the arguments of the packet, every other field as it
was; it returns the boolean of `Show` and leaves the menu as `Show` left it. -/
theorem handlePacket_spec (c : Collab) (s : State) (p : Packet) :
    ∃ m1 : Menu,
      m1.Configuration.Flags.Autotype = false ∧
      m1.CliArguments = p.CliArguments ∧
      m1.Configuration.Flags.Daemon = s.m.Configuration.Flags.Daemon ∧
      m1.Configuration.General = s.m.Configuration.General ∧
      m1.CacheStart = s.m.CacheStart ∧
      m1.Rest = s.m.Rest ∧
      (handlePacket c s p).2 = (c.Show m1).2 ∧
      (handlePacket c s p).1.m = (c.Show m1).1 ∧
      showCalls (handlePacket c s p).1.trace = showCalls s.trace ++ [(p.CliArguments, false)] ∧
      (handlePacket c s p).1.fs = s.fs := by
  refine ⟨{ s.m with
      Configuration := { s.m.Configuration with
        Flags := { s.m.Configuration.Flags with Autotype := false } },
      CliArguments := p.CliArguments }, rfl, rfl, rfl, rfl, rfl, rfl, rfl, rfl, ?_, rfl⟩
  simp [handlePacket, showCalls, State.emit, List.filterMap_append]

/-! ## The port registry -/

/-- C10: when `savePort` succeeds, `getPort` right after it succeeds and returns exactly
the saved string, whatever the file held before; when the cache folder cannot be made,
`savePort` returns that error and leaves the file system as it was. -/
theorem savePort_getPort (home : Path) (fs : FS) (port : String) :
    ((savePort home fs port).2 = none →
      getPort home (savePort home fs port).1 = (port, none)) ∧
    (∀ err, (makeCacheFolder home fs).2 = some err →
      savePort home fs port = (fs, some err)) := by
  constructor
  · intro h
    unfold savePort at h ⊢
    rcases hm : makeCacheFolder home fs with ⟨fs1, _ | err⟩
    · rw [hm] at h
      simp only [] at h ⊢
      cases hw : fs1.WriteFile (portFile home) port with
      | error err =>
        rw [hw] at h
        cases h
      | ok fs2 =>
        simp only [getPort, FS.ReadFile,
          WriteFile_lookup fs1 fs2 (portFile home) port (portFile_ne_nil home) hw]
    · rw [hm] at h
      cases h
  · intro err h
    unfold savePort
    unfold makeCacheFolder at h ⊢
    cases hk : fs.MkdirAll (cacheFolder home) with
    | error e =>
      rw [hk] at h
      simp only [Option.some.injEq] at h
      simp only [h]
    | ok fs1 =>
      rw [hk] at h
      cases h

theorem savePort_getPort_witness :
    (savePort ["home", "user"] demoFS "4000").2 = none ∧
    getPort ["home", "user"]
      (savePort ["home", "user"] demoFS "4000").1 =
      ("4000", none) ∧
    (makeCacheFolder ["home", "user"] [(["home"], .file "x")]).2 =
      some (.errorString "failed to make cache folder: mkdir home: not a directory") ∧
    savePort ["home", "user"] [(["home"], .file "x")] "4000" =
      ([(["home"], .file "x")],
        some (.errorString "failed to make cache folder: mkdir home: not a directory")) :=
  ⟨by decide,
    (savePort_getPort ["home", "user"] demoFS "4000").1
      (by decide),
    by decide,
    (savePort_getPort ["home", "user"] [(["home"], .file "x")] "4000").2 _ (by decide)⟩

/-! ## The listener loop -/

theorem showCalls_emit (s : State) (e : Event) (he : ∀ args autotype, e ≠ .showMenu args autotype) :
    showCalls (s.emit e).trace = showCalls s.trace := by
  cases e with
  | showMenu args autotype => exact absurd rfl (he args autotype)
  | _ => simp [showCalls, State.emit, List.filterMap_append]

theorem showCalls_armDeadline (s : State) :
    showCalls (armDeadline s).trace = showCalls s.trace := by
  unfold armDeadline
  split
  · exact showCalls_emit s _ (by simp)
  · rfl

theorem showCalls_runDeferred (r : State × Outcome) :
    showCalls (runDeferred r).1.trace = showCalls r.1.trace := by
  have hrep : ∀ n : Nat, List.filterMap (fun e => match e with
      | Event.showMenu args autotype => some (args, autotype)
      | _ => none) (List.replicate n Event.closeConn) = [] := by
    intro n
    induction n with
    | zero => rfl
    | succ k ih => simp [List.replicate_succ, ih]
  unfold runDeferred
  split
  · rfl
  · simp [showCalls, List.filterMap_append, hrep]

/-- C2: a packet decoded within the 3 seconds is dispatched, and the loop variable `exit`
becomes `fatal && !Daemon`, with the daemon flag as the handler left it. When the handler
reports `true` and the server is no daemon, `setupListener` leaves the loop and returns
`nil`; in every other case (a daemon among them) it goes on to the next `Accept`. -/
theorem dispatch_exit_iff (env : Env) (h : State → Packet → State × Bool) (s s1 : State)
    (port : String) (fs1 : FS) (pre rest : List AcceptResult) (p : Packet) (delay : Nat)
    (hl : env.listen = .ok port)
    (hs : savePort env.home s.fs port = (fs1, none))
    (ha : env.accepts = pre ++ .conn ⟨⟨p, none⟩, delay⟩ :: rest)
    (hp : listenerLoop h pre false { bound s port with fs := fs1 } = (s1, .blocked))
    (hd : delay < 3 * Second) :
    listenerIteration h (.conn ⟨⟨p, none⟩, delay⟩) s1 =
      .next (h (deferClose (armDeadline s1)) p).1
        ((h (deferClose (armDeadline s1)) p).2 &&
          !(h (deferClose (armDeadline s1)) p).1.m.Configuration.Flags.Daemon) ∧
    (((h (deferClose (armDeadline s1)) p).2 = true ∧
        (h (deferClose (armDeadline s1)) p).1.m.Configuration.Flags.Daemon = false) →
      setupListener env h s = runDeferred ((h (deferClose (armDeadline s1)) p).1, .returned none) ∧
      (setupListener env h s).2 = .returned none) ∧
    (¬ ((h (deferClose (armDeadline s1)) p).2 = true ∧
        (h (deferClose (armDeadline s1)) p).1.m.Configuration.Flags.Daemon = false) →
      setupListener env h s =
        runDeferred (listenerLoop h rest false (h (deferClose (armDeadline s1)) p).1)) := by
  have hit : listenerIteration h (.conn ⟨⟨p, none⟩, delay⟩) s1 =
      .next (h (deferClose (armDeadline s1)) p).1
        ((h (deferClose (armDeadline s1)) p).2 &&
          !(h (deferClose (armDeadline s1)) p).1.m.Configuration.Flags.Daemon) := by
    simp [listenerIteration, decodeTask, selectCase, hd]
  have hrun := setupListener_from env h s s1 port fs1 pre _ hl hs ha hp
  rw [listenerLoop_cons, hit] at hrun
  simp only [] at hrun
  refine ⟨hit, ?_, ?_⟩
  · rintro ⟨h1, h2⟩
    rw [h1, h2] at hrun
    simp only [Bool.not_false, Bool.and_self, listenerLoop] at hrun
    exact ⟨hrun, by rw [hrun]; rfl⟩
  · intro hne
    have hex : ((h (deferClose (armDeadline s1)) p).2 &&
        !(h (deferClose (armDeadline s1)) p).1.m.Configuration.Flags.Daemon) = false := by
      cases h1 : (h (deferClose (armDeadline s1)) p).2 <;>
        cases h2 : (h (deferClose (armDeadline s1)) p).1.m.Configuration.Flags.Daemon <;>
        simp_all
    rw [hex] at hrun
    exact hrun

theorem dispatch_exit_iff_witness :
    (5 : Nat) < 3 * Second ∧
    (handlePacket (demoCollab false true)
      (deferClose (armDeadline (demoListening false false))) demoPacket).2 = true ∧
    (handlePacket (demoCollab false true)
      (deferClose (armDeadline (demoListening false false)))
        demoPacket).1.m.Configuration.Flags.Daemon = false ∧
    (setupListener (demoEnv [demoConn]) (handlePacket (demoCollab false true))
      (demoState false false)).2 = .returned none ∧
    ¬ ((handlePacket (demoCollab false true)
        (deferClose (armDeadline (demoListening false true))) demoPacket).2 = true ∧
      (handlePacket (demoCollab false true)
        (deferClose (armDeadline (demoListening false true)))
          demoPacket).1.m.Configuration.Flags.Daemon = false) ∧
    setupListener (demoEnv [demoConn]) (handlePacket (demoCollab false true))
        (demoState false true) =
      runDeferred (listenerLoop (handlePacket (demoCollab false true)) [] false
        (handlePacket (demoCollab false true)
          (deferClose (armDeadline (demoListening false true))) demoPacket).1) :=
  ⟨by decide, rfl, rfl,
    ((dispatch_exit_iff (demoEnv [demoConn]) (handlePacket (demoCollab false true))
      (demoState false false) (demoListening false false) "4000" demoSaved [] []
      demoPacket 5 rfl rfl rfl rfl (by decide)).2.1 ⟨rfl, rfl⟩).2,
    by decide,
    (dispatch_exit_iff (demoEnv [demoConn]) (handlePacket (demoCollab false true))
      (demoState false true) (demoListening false true) "4000" demoSaved [] []
      demoPacket 5 rfl rfl rfl rfl (by decide)).2.2 (by decide)⟩

/-- C5: an accept error that is no timeout, whatever fault the `*net.OpError` of the
listener wraps, ends the loop: `setupListener` returns that same error and dispatches
nothing in that iteration. The type assertion of the accept site holds for every error
the listener hands out, so the run ends in a plain return. -/
theorem accept_error_returned (env : Env) (h : State → Packet → State × Bool) (s s1 : State)
    (port : String) (fs1 : FS) (pre rest : List AcceptResult) (msg : String)
    (hl : env.listen = .ok port)
    (hs : savePort env.home s.fs port = (fs1, none))
    (ha : env.accepts = pre ++ .error (.opError false msg) :: rest)
    (hp : listenerLoop h pre false { bound s port with fs := fs1 } = (s1, .blocked)) :
    setupListener env h s =
      runDeferred (armDeadline s1, .returned (some (.opError false msg))) ∧
    (setupListener env h s).2 = .returned (some (.opError false msg)) ∧
    showCalls (setupListener env h s).1.trace = showCalls s1.trace := by
  have hrun := setupListener_from env h s s1 port fs1 pre _ hl hs ha hp
  rw [listenerLoop_cons] at hrun
  simp only [listenerIteration, Bool.false_eq_true, if_false] at hrun
  refine ⟨hrun, by rw [hrun]; rfl, ?_⟩
  rw [hrun, showCalls_runDeferred, showCalls_armDeadline]

theorem accept_error_returned_witness :
    listenerLoop (handlePacket (demoCollab false false)) [demoConn] false
      (demoListening false false) = (demoServed, .blocked) ∧
    (setupListener (demoEnv [demoConn, .error (.opError false "accept: too many open files")])
      (handlePacket (demoCollab false false)) (demoState false false)).2 =
        .returned (some (.opError false "accept: too many open files")) ∧
    showCalls (setupListener
      (demoEnv [demoConn, .error (.opError false "accept: too many open files")])
      (handlePacket (demoCollab false false)) (demoState false false)).1.trace =
        showCalls demoServed.trace :=
  ⟨rfl,
    (accept_error_returned
      (demoEnv [demoConn, .error (.opError false "accept: too many open files")])
      (handlePacket (demoCollab false false)) (demoState false false) demoServed "4000"
      demoSaved [demoConn] [] "accept: too many open files" rfl rfl rfl rfl).2⟩

/-- C6: a decode error other than `io.EOF` that arrives within the 3 seconds ends the loop;
`setupListener` returns exactly that error and the handler is not called, whatever the
packet variable holds. -/
theorem decode_error_returned (env : Env) (h : State → Packet → State × Bool) (s s1 : State)
    (port : String) (fs1 : FS) (pre rest : List AcceptResult) (p : Packet) (err : GoError)
    (delay : Nat)
    (hl : env.listen = .ok port)
    (hs : savePort env.home s.fs port = (fs1, none))
    (ha : env.accepts = pre ++ .conn ⟨⟨p, some err⟩, delay⟩ :: rest)
    (hp : listenerLoop h pre false { bound s port with fs := fs1 } = (s1, .blocked))
    (he : err ≠ .eof) (hd : delay < 3 * Second) :
    setupListener env h s = runDeferred (deferClose (armDeadline s1), .returned (some err)) ∧
    (setupListener env h s).2 = .returned (some err) ∧
    showCalls (setupListener env h s).1.trace = showCalls s1.trace := by
  have hrun := setupListener_from env h s s1 port fs1 pre _ hl hs ha hp
  rw [listenerLoop_cons] at hrun
  simp only [listenerIteration, decodeTask, selectCase, he, hd, ne_eq, not_false_eq_true,
    if_true] at hrun
  refine ⟨hrun, by rw [hrun]; rfl, ?_⟩
  rw [hrun, showCalls_runDeferred]
  exact showCalls_armDeadline s1

theorem decode_error_returned_witness :
    GoError.errorString "gob: unexpected EOF" ≠ .eof ∧
    (100 : Nat) < 3 * Second ∧
    (setupListener
      (demoEnv [.conn ⟨⟨⟨[]⟩, some (.errorString "gob: unexpected EOF")⟩, 100⟩, demoConn])
      (handlePacket (demoCollab false false)) (demoState false false)).2 =
        .returned (some (.errorString "gob: unexpected EOF")) ∧
    showCalls (setupListener
      (demoEnv [.conn ⟨⟨⟨[]⟩, some (.errorString "gob: unexpected EOF")⟩, 100⟩, demoConn])
      (handlePacket (demoCollab false false)) (demoState false false)).1.trace =
        showCalls (demoListening false false).trace :=
  ⟨by decide, by decide,
    (decode_error_returned
      (demoEnv [.conn ⟨⟨⟨[]⟩, some (.errorString "gob: unexpected EOF")⟩, 100⟩, demoConn])
      (handlePacket (demoCollab false false)) (demoState false false)
      (demoListening false false) "4000" demoSaved [] [demoConn] ⟨[]⟩
      (.errorString "gob: unexpected EOF") 100 rfl rfl rfl rfl (by decide) (by decide)).2⟩

/-- C7: a connection whose decoding ends in `io.EOF` is no event: the goroutine sends
nothing, the loop body ends with `exit = false` after logging the 3-second timeout, neither
calling the handler nor returning, and `setupListener` goes on to the next `Accept`. -/
theorem decode_eof_continues (env : Env) (h : State → Packet → State × Bool) (s s1 : State)
    (port : String) (fs1 : FS) (pre rest : List AcceptResult) (p : Packet) (delay : Nat)
    (hl : env.listen = .ok port)
    (hs : savePort env.home s.fs port = (fs1, none))
    (ha : env.accepts = pre ++ .conn ⟨⟨p, some .eof⟩, delay⟩ :: rest)
    (hp : listenerLoop h pre false { bound s port with fs := fs1 } = (s1, .blocked)) :
    listenerIteration h (.conn ⟨⟨p, some .eof⟩, delay⟩) s1 =
      .next ((deferClose (armDeadline s1)).emit (.log "received request is timed out")) false ∧
    showCalls ((deferClose (armDeadline s1)).emit
      (.log "received request is timed out")).trace = showCalls s1.trace ∧
    setupListener env h s =
      runDeferred (listenerLoop h rest false
        ((deferClose (armDeadline s1)).emit (.log "received request is timed out"))) := by
  have hit : listenerIteration h (.conn ⟨⟨p, some .eof⟩, delay⟩) s1 =
      .next ((deferClose (armDeadline s1)).emit (.log "received request is timed out"))
        false := by
    simp [listenerIteration, decodeTask, selectCase]
  have hrun := setupListener_from env h s s1 port fs1 pre _ hl hs ha hp
  rw [listenerLoop_cons, hit] at hrun
  refine ⟨hit, ?_, hrun⟩
  rw [showCalls_emit _ _ (by simp)]
  exact showCalls_armDeadline s1

theorem decode_eof_continues_witness :
    (demoEnv [.conn ⟨⟨⟨[]⟩, some .eof⟩, 1⟩, demoConn]).accepts =
      [] ++ .conn ⟨⟨⟨[]⟩, some .eof⟩, 1⟩ :: [demoConn] ∧
    listenerIteration (handlePacket (demoCollab false true))
        (.conn ⟨⟨⟨[]⟩, some .eof⟩, 1⟩) (demoListening false false) =
      .next ((deferClose (armDeadline (demoListening false false))).emit
        (.log "received request is timed out")) false ∧
    showCalls ((deferClose (armDeadline (demoListening false false))).emit
      (.log "received request is timed out")).trace =
        showCalls (demoListening false false).trace ∧
    setupListener (demoEnv [.conn ⟨⟨⟨[]⟩, some .eof⟩, 1⟩, demoConn])
        (handlePacket (demoCollab false true)) (demoState false false) =
      runDeferred (listenerLoop (handlePacket (demoCollab false true)) [demoConn] false
        ((deferClose (armDeadline (demoListening false false))).emit
          (.log "received request is timed out"))) :=
  ⟨rfl,
    decode_eof_continues (demoEnv [.conn ⟨⟨⟨[]⟩, some .eof⟩, 1⟩, demoConn])
      (handlePacket (demoCollab false true)) (demoState false false)
      (demoListening false false) "4000" demoSaved [] [demoConn] ⟨[]⟩ 1 rfl rfl rfl rfl⟩

/-- C8: when `Accept` fails with the timeout of the cache deadline, `setupListener` logs
it and returns `nil` without calling the handler in that iteration, whatever was served
in the iterations before. -/
theorem accept_timeout_returns_nil (env : Env) (h : State → Packet → State × Bool)
    (s s1 : State) (port : String) (fs1 : FS) (pre rest : List AcceptResult) (msg : String)
    (hl : env.listen = .ok port)
    (hs : savePort env.home s.fs port = (fs1, none))
    (ha : env.accepts = pre ++ .error (.opError true msg) :: rest)
    (hp : listenerLoop h pre false { bound s port with fs := fs1 } = (s1, .blocked)) :
    setupListener env h s =
      runDeferred ((armDeadline s1).emit (.log "cache timed out"), .returned none) ∧
    (setupListener env h s).2 = .returned none ∧
    showCalls (setupListener env h s).1.trace = showCalls s1.trace := by
  have hrun := setupListener_from env h s s1 port fs1 pre _ hl hs ha hp
  rw [listenerLoop_cons] at hrun
  simp only [listenerIteration, if_true] at hrun
  refine ⟨hrun, by rw [hrun]; rfl, ?_⟩
  rw [hrun, showCalls_runDeferred, showCalls_emit _ _ (by simp), showCalls_armDeadline]

theorem accept_timeout_returns_nil_witness :
    listenerLoop (handlePacket (demoCollab false false)) [demoConn] false
      (demoListening false false) = (demoServed, .blocked) ∧
    (setupListener (demoEnv [demoConn, .error (.opError true "accept: i/o timeout")])
      (handlePacket (demoCollab false false)) (demoState false false)).2 = .returned none ∧
    showCalls (setupListener (demoEnv [demoConn, .error (.opError true "accept: i/o timeout")])
      (handlePacket (demoCollab false false)) (demoState false false)).1.trace =
        showCalls demoServed.trace :=
  ⟨rfl,
    (accept_timeout_returns_nil
      (demoEnv [demoConn, .error (.opError true "accept: i/o timeout")])
      (handlePacket (demoCollab false false)) (demoState false false) demoServed "4000"
      demoSaved [demoConn] [] "accept: i/o timeout" rfl rfl rfl rfl).2⟩

end Kpmenu
